import Mathlib

/-
Verification of mcerp's `umath.py`: a catalog of elementary mathematical
functions lifted to Monte-Carlo uncertain quantities.

Scalars (Python floats / numpy array elements) are modelled as rationals ℚ,
so the arithmetic mean of a sample list is exact and all definitions are
executable.  The numpy vectorized primitives (np.sin, np.log, ...) are
external to the repository; they are abstracted as a record of scalar
functions `NumpyPrims`, and the numpy broadcasting/coercion rules they share
are modelled once (`npUnary`, `npBinary`).
-/

namespace MCerp

/-- Modelled from the spec: the class `UncertainFunction` of mcerp's core
module is not under src/ (only `umath.py` is).  Per the spec's data model and
external-interface contract, an Uncertain Quantity is an opaque value holding
a nominal value (a float) and a fixed-length sample array of floats, with a
constructor `make(nominal, samples)` that stores both; `x.mcpts` and
`x._mcpts` both denote the stored sample array. -/
structure UncertainFunction where
  nominal : ℚ
  mcpts : List ℚ
deriving DecidableEq

/-- The privately named accessor used by `abs`, `acos` and `hypot` in the
source; it reads the same stored sample array as `mcpts`. -/
def UncertainFunction.mcptsPriv (u : UncertainFunction) : List ℚ := u.mcpts

/-- np.mean over a one-dimensional array: sum divided by length. -/
def npMean (xs : List ℚ) : ℚ := xs.sum / (xs.length : ℚ)

/-- A Python value that can reach a catalog function: a plain scalar, a plain
numpy array, an instance of the concrete `UncertainFunction` class, or a
duck-typed object that exposes the uncertain-quantity capability (a sample
array and a nominal value) without being an instance of that class. -/
inductive Value where
  | plainScalar (s : ℚ)
  | plainArray (a : List ℚ)
  | uf (u : UncertainFunction)
  | duck (u : UncertainFunction)
deriving DecidableEq

/-- Python's `isinstance(x, UncertainFunction)`: true exactly for instances
of the concrete class, regardless of capabilities. -/
def isinstanceUF : Value → Bool
  | .uf _ => true
  | _ => false

/-- Whether a value exposes the uncertain-quantity capability (a sample
array and a nominal value), whatever its concrete class. -/
def hasUncertainCapability : Value → Bool
  | .uf _ => true
  | .duck _ => true
  | _ => false

/-- Errors a call can raise: numpy's TypeError on a non-numeric operand, and
numpy's ValueError for operand shapes that cannot be broadcast together. -/
inductive Err where
  | typeError
  | broadcastMismatch
deriving DecidableEq

/-- A numpy vectorized unary primitive applied to a value that is not an
`UncertainFunction` instance: elementwise on scalars and arrays, a TypeError
on any other object. -/
def npUnary (f : ℚ → ℚ) : Value → Except Err Value
  | .plainScalar s => .ok (.plainScalar (f s))
  | .plainArray a => .ok (.plainArray (a.map f))
  | _ => .error .typeError

/-- numpy broadcasting of a binary ufunc over two one-dimensional arrays:
equal lengths combine index-for-index, a length-one array is broadcast
against the other, and any other length combination is a ValueError. -/
def npBroadcastBin (f : ℚ → ℚ → ℚ) (a b : List ℚ) : Except Err (List ℚ) :=
  if a.length = b.length then .ok (List.zipWith f a b)
  else if a.length = 1 then .ok (b.map (fun y => f a.headI y))
  else if b.length = 1 then .ok (a.map (fun x => f x b.headI))
  else .error .broadcastMismatch

/-- A numpy vectorized binary primitive applied to two values that are not
`UncertainFunction` instances. -/
def npBinary (f : ℚ → ℚ → ℚ) : Value → Value → Except Err Value
  | .plainScalar s, .plainScalar t => .ok (.plainScalar (f s t))
  | .plainScalar s, .plainArray b => .ok (.plainArray (b.map (fun y => f s y)))
  | .plainArray a, .plainScalar t => .ok (.plainArray (a.map (fun x => f x t)))
  | .plainArray a, .plainArray b => (npBroadcastBin f a b).map Value.plainArray
  | _, _ => .error .typeError

/-- The scalar numpy primitives the catalog instantiates, abstracted: the
claims about `umath.py` hold for every choice of primitive. -/
structure NumpyPrims where
  npabs : ℚ → ℚ
  arccos : ℚ → ℚ
  arccosh : ℚ → ℚ
  arcsin : ℚ → ℚ
  arcsinh : ℚ → ℚ
  arctan : ℚ → ℚ
  arctanh : ℚ → ℚ
  npceil : ℚ → ℚ
  npcos : ℚ → ℚ
  npcosh : ℚ → ℚ
  npdegrees : ℚ → ℚ
  npexp : ℚ → ℚ
  npexpm1 : ℚ → ℚ
  npfabs : ℚ → ℚ
  npfloor : ℚ → ℚ
  nphypot : ℚ → ℚ → ℚ
  nplog : ℚ → ℚ
  nplog10 : ℚ → ℚ
  nplog1p : ℚ → ℚ
  npradians : ℚ → ℚ
  npsin : ℚ → ℚ
  npsinh : ℚ → ℚ
  npsqrt : ℚ → ℚ
  nptan : ℚ → ℚ
  nptanh : ℚ → ℚ
  nptrunc : ℚ → ℚ

/-- Modelled from the spec: `to_uncertain_func` of mcerp's core module is not
under src/.  Per the spec's coercion contract, it returns an Uncertain
Quantity unchanged and lifts a plain scalar to a degenerate Uncertain
Quantity whose sample array is a constant array of the reference length (the
other argument's sample-array length); any other kind is a type/capability
error. -/
def to_uncertain_func (refLen : ℕ) : Value → Except Err UncertainFunction
  | .uf u => .ok u
  | .plainScalar s => .ok ⟨s, List.replicate refLen s⟩
  | _ => .error .typeError

/-- The sample-array length a value contributes as the coercion reference. -/
def sampleLen : Value → ℕ
  | .uf u => u.mcpts.length
  | .duck u => u.mcpts.length
  | _ => 0

/-- Shared shape of every single-argument catalog function body: dispatch on
`isinstance(x, UncertainFunction)`, map the primitive over the samples and
rewrap with the mean as nominal, else fall through to the raw primitive. -/
def lift1 (f : ℚ → ℚ) : Value → Except Err Value
  | .uf x =>
      let mcpts := x.mcpts.map f
      .ok (.uf ⟨npMean mcpts, mcpts⟩)
  | x => npUnary f x

def abs (P : NumpyPrims) : Value → Except Err Value
  | .uf x =>
      let mcpts := x.mcptsPriv.map P.npabs
      .ok (.uf ⟨npMean mcpts, mcpts⟩)
  | x => npUnary P.npabs x

def acos (P : NumpyPrims) : Value → Except Err Value
  | .uf x =>
      let mcpts := x.mcptsPriv.map P.arccos
      .ok (.uf ⟨npMean mcpts, mcpts⟩)
  | x => npUnary P.arccos x

def acosh (P : NumpyPrims) : Value → Except Err Value
  | .uf x =>
      let mcpts := x.mcpts.map P.arccosh
      .ok (.uf ⟨npMean mcpts, mcpts⟩)
  | x => npUnary P.arccosh x

def asin (P : NumpyPrims) : Value → Except Err Value
  | .uf x =>
      let mcpts := x.mcpts.map P.arcsin
      .ok (.uf ⟨npMean mcpts, mcpts⟩)
  | x => npUnary P.arcsin x

def asinh (P : NumpyPrims) : Value → Except Err Value
  | .uf x =>
      let mcpts := x.mcpts.map P.arcsinh
      .ok (.uf ⟨npMean mcpts, mcpts⟩)
  | x => npUnary P.arcsinh x

def atan (P : NumpyPrims) : Value → Except Err Value
  | .uf x =>
      let mcpts := x.mcpts.map P.arctan
      .ok (.uf ⟨npMean mcpts, mcpts⟩)
  | x => npUnary P.arctan x

def atanh (P : NumpyPrims) : Value → Except Err Value
  | .uf x =>
      let mcpts := x.mcpts.map P.arctanh
      .ok (.uf ⟨npMean mcpts, mcpts⟩)
  | x => npUnary P.arctanh x

def ceil (P : NumpyPrims) : Value → Except Err Value
  | .uf x =>
      let mcpts := x.mcpts.map P.npceil
      .ok (.uf ⟨npMean mcpts, mcpts⟩)
  | x => npUnary P.npceil x

def cos (P : NumpyPrims) : Value → Except Err Value
  | .uf x =>
      let mcpts := x.mcpts.map P.npcos
      .ok (.uf ⟨npMean mcpts, mcpts⟩)
  | x => npUnary P.npcos x

def cosh (P : NumpyPrims) : Value → Except Err Value
  | .uf x =>
      let mcpts := x.mcpts.map P.npcosh
      .ok (.uf ⟨npMean mcpts, mcpts⟩)
  | x => npUnary P.npcosh x

def degrees (P : NumpyPrims) : Value → Except Err Value
  | .uf x =>
      let mcpts := x.mcpts.map P.npdegrees
      .ok (.uf ⟨npMean mcpts, mcpts⟩)
  | x => npUnary P.npdegrees x

def exp (P : NumpyPrims) : Value → Except Err Value
  | .uf x =>
      let mcpts := x.mcpts.map P.npexp
      .ok (.uf ⟨npMean mcpts, mcpts⟩)
  | x => npUnary P.npexp x

def expm1 (P : NumpyPrims) : Value → Except Err Value
  | .uf x =>
      let mcpts := x.mcpts.map P.npexpm1
      .ok (.uf ⟨npMean mcpts, mcpts⟩)
  | x => npUnary P.npexpm1 x

def fabs (P : NumpyPrims) : Value → Except Err Value
  | .uf x =>
      let mcpts := x.mcpts.map P.npfabs
      .ok (.uf ⟨npMean mcpts, mcpts⟩)
  | x => npUnary P.npfabs x

def floor (P : NumpyPrims) : Value → Except Err Value
  | .uf x =>
      let mcpts := x.mcpts.map P.npfloor
      .ok (.uf ⟨npMean mcpts, mcpts⟩)
  | x => npUnary P.npfloor x

/-- Faithful to umath.py line 182: the guard tests `isinstance(x, ...)` twice
and never tests `y`. -/
def hypot (P : NumpyPrims) (x y : Value) : Except Err Value :=
  if isinstanceUF x || isinstanceUF x then
    match to_uncertain_func (sampleLen y) x with
    | .error e => .error e
    | .ok ufx =>
      match to_uncertain_func (sampleLen x) y with
      | .error e => .error e
      | .ok ufy =>
        match npBroadcastBin P.nphypot ufx.mcptsPriv ufy.mcptsPriv with
        | .error e => .error e
        | .ok mcpts => .ok (.uf ⟨npMean mcpts, mcpts⟩)
  else npBinary P.nphypot x y

def log (P : NumpyPrims) : Value → Except Err Value
  | .uf x =>
      let mcpts := x.mcpts.map P.nplog
      .ok (.uf ⟨npMean mcpts, mcpts⟩)
  | x => npUnary P.nplog x

def ln (P : NumpyPrims) (x : Value) : Except Err Value := log P x

def log10 (P : NumpyPrims) : Value → Except Err Value
  | .uf x =>
      let mcpts := x.mcpts.map P.nplog10
      .ok (.uf ⟨npMean mcpts, mcpts⟩)
  | x => npUnary P.nplog10 x

def log1p (P : NumpyPrims) : Value → Except Err Value
  | .uf x =>
      let mcpts := x.mcpts.map P.nplog1p
      .ok (.uf ⟨npMean mcpts, mcpts⟩)
  | x => npUnary P.nplog1p x

def radians (P : NumpyPrims) : Value → Except Err Value
  | .uf x =>
      let mcpts := x.mcpts.map P.npradians
      .ok (.uf ⟨npMean mcpts, mcpts⟩)
  | x => npUnary P.npradians x

def sin (P : NumpyPrims) : Value → Except Err Value
  | .uf x =>
      let mcpts := x.mcpts.map P.npsin
      .ok (.uf ⟨npMean mcpts, mcpts⟩)
  | x => npUnary P.npsin x

def sinh (P : NumpyPrims) : Value → Except Err Value
  | .uf x =>
      let mcpts := x.mcpts.map P.npsinh
      .ok (.uf ⟨npMean mcpts, mcpts⟩)
  | x => npUnary P.npsinh x

def sqrt (P : NumpyPrims) : Value → Except Err Value
  | .uf x =>
      let mcpts := x.mcpts.map P.npsqrt
      .ok (.uf ⟨npMean mcpts, mcpts⟩)
  | x => npUnary P.npsqrt x

def tan (P : NumpyPrims) : Value → Except Err Value
  | .uf x =>
      let mcpts := x.mcpts.map P.nptan
      .ok (.uf ⟨npMean mcpts, mcpts⟩)
  | x => npUnary P.nptan x

def tanh (P : NumpyPrims) : Value → Except Err Value
  | .uf x =>
      let mcpts := x.mcpts.map P.nptanh
      .ok (.uf ⟨npMean mcpts, mcpts⟩)
  | x => npUnary P.nptanh x

def trunc (P : NumpyPrims) : Value → Except Err Value
  | .uf x =>
      let mcpts := x.mcpts.map P.nptrunc
      .ok (.uf ⟨npMean mcpts, mcpts⟩)
  | x => npUnary P.nptrunc x

/-- The single-argument catalog, as names. -/
inductive UnaryFn where
  | abs | fabs | sqrt | degrees | radians
  | acos | acosh | asin | asinh | atan | atanh
  | cos | cosh | sin | sinh | tan | tanh
  | exp | expm1 | ln | log | log1p | log10
  | ceil | floor | trunc
deriving DecidableEq

/-- The scalar primitive underlying each single-argument catalog entry. -/
def primOf (P : NumpyPrims) : UnaryFn → (ℚ → ℚ)
  | .abs => P.npabs
  | .fabs => P.npfabs
  | .sqrt => P.npsqrt
  | .degrees => P.npdegrees
  | .radians => P.npradians
  | .acos => P.arccos
  | .acosh => P.arccosh
  | .asin => P.arcsin
  | .asinh => P.arcsinh
  | .atan => P.arctan
  | .atanh => P.arctanh
  | .cos => P.npcos
  | .cosh => P.npcosh
  | .sin => P.npsin
  | .sinh => P.npsinh
  | .tan => P.nptan
  | .tanh => P.nptanh
  | .exp => P.npexp
  | .expm1 => P.npexpm1
  | .ln => P.nplog
  | .log => P.nplog
  | .log1p => P.nplog1p
  | .log10 => P.nplog10
  | .ceil => P.npceil
  | .floor => P.npfloor
  | .trunc => P.nptrunc

/-- Apply a single-argument catalog function by name. -/
def applyUnary (P : NumpyPrims) : UnaryFn → Value → Except Err Value
  | .abs => abs P
  | .fabs => fabs P
  | .sqrt => sqrt P
  | .degrees => degrees P
  | .radians => radians P
  | .acos => acos P
  | .acosh => acosh P
  | .asin => asin P
  | .asinh => asinh P
  | .atan => atan P
  | .atanh => atanh P
  | .cos => cos P
  | .cosh => cosh P
  | .sin => sin P
  | .sinh => sinh P
  | .tan => tan P
  | .tanh => tanh P
  | .exp => exp P
  | .expm1 => expm1 P
  | .ln => ln P
  | .log => log P
  | .log1p => log1p P
  | .log10 => log10 P
  | .ceil => ceil P
  | .floor => floor P
  | .trunc => trunc P

/-- A call into the public surface of umath.py: one of the single-argument
catalog functions, or the two-argument hypot. -/
inductive CatalogCall where
  | unary (F : UnaryFn) (x : Value)
  | hyp (x y : Value)

/-- Evaluate a catalog call. -/
def applyCall (P : NumpyPrims) : CatalogCall → Except Err Value
  | .unary F x => applyUnary P F x
  | .hyp x y => hypot P x y

/-- Whether a value is a Plain Numeric Value (scalar or array). -/
def isPlain : Value → Bool
  | .plainScalar _ => true
  | .plainArray _ => true
  | _ => false

/-- A concrete instantiation of the primitive record, for evaluating the
model on concrete inputs. -/
def P0 : NumpyPrims where
  npabs := fun q => q + 1
  arccos := fun q => q + 2
  arccosh := fun q => q + 3
  arcsin := fun q => q + 4
  arcsinh := fun q => q + 5
  arctan := fun q => q + 6
  arctanh := fun q => q + 7
  npceil := fun q => q + 8
  npcos := fun q => q + 9
  npcosh := fun q => q + 10
  npdegrees := fun q => q + 11
  npexp := fun q => q + 12
  npexpm1 := fun q => q + 13
  npfabs := fun q => q + 14
  npfloor := fun q => q + 15
  nphypot := fun a b => a * a + b * b
  nplog := fun q => q + 16
  nplog10 := fun q => q + 17
  nplog1p := fun q => q + 18
  npradians := fun q => q + 19
  npsin := fun q => q + 20
  npsinh := fun q => q + 21
  npsqrt := fun q => q + 22
  nptan := fun q => q + 23
  nptanh := fun q => q + 24
  nptrunc := fun q => q + 25

section Helpers

/-- Every single-argument catalog entry is an instance of the shared
dispatch-and-propagate template over its own primitive. -/
lemma applyUnary_eq_lift1 (P : NumpyPrims) (F : UnaryFn) (x : Value) :
    applyUnary P F x = lift1 (primOf P F) x := by
  cases F <;> cases x <;> rfl

/-- The mean of a nonempty constant list is the constant. -/
lemma npMean_replicate (n : ℕ) (c : ℚ) (h : n ≠ 0) :
    npMean (List.replicate n c) = c := by
  have hn : (n : ℚ) ≠ 0 := Nat.cast_ne_zero.mpr h
  simp [npMean, List.sum_replicate, nsmul_eq_mul]
  field_simp

/-- A vectorized binary primitive applied outside the uncertain branch never
produces an `UncertainFunction` instance. -/
lemma npBinary_ne_ok_uf (f : ℚ → ℚ → ℚ) (a b : Value) (r : UncertainFunction) :
    npBinary f a b ≠ .ok (.uf r) := by
  cases a <;> cases b <;> simp [npBinary, Except.map]
  cases hb : npBroadcastBin f _ _ <;> simp [hb, Except.map]

/-- Shape of `hypot` when its first argument is an `UncertainFunction`
instance (the only way the uncertain branch is entered, given the guard). -/
lemma hypot_uf_left_eq (P : NumpyPrims) (u : UncertainFunction) (y : Value) :
    hypot P (.uf u) y =
      (to_uncertain_func u.mcpts.length y).bind (fun ufy =>
        (npBroadcastBin P.nphypot u.mcpts ufy.mcpts).map
          (fun m => Value.uf ⟨npMean m, m⟩)) := by
  cases y with
  | uf v =>
      cases hb : npBroadcastBin P.nphypot u.mcpts v.mcpts <;>
        simp [hypot, isinstanceUF, to_uncertain_func, sampleLen,
          UncertainFunction.mcptsPriv, hb, Except.bind, Except.map]
  | plainScalar s =>
      cases hb : npBroadcastBin P.nphypot u.mcpts (List.replicate u.mcpts.length s) <;>
        simp [hypot, isinstanceUF, to_uncertain_func, sampleLen,
          UncertainFunction.mcptsPriv, hb, Except.bind, Except.map]
  | plainArray a =>
      simp [hypot, isinstanceUF, to_uncertain_func, sampleLen, Except.bind]
  | duck v =>
      simp [hypot, isinstanceUF, to_uncertain_func, sampleLen, Except.bind]

/-- Broadcasting two arrays of unequal, non-degenerate lengths is a numpy
ValueError. -/
lemma npBroadcastBin_mismatch (f : ℚ → ℚ → ℚ) (a b : List ℚ)
    (h : a.length ≠ b.length) (ha : a.length ≠ 1) (hb : b.length ≠ 1) :
    npBroadcastBin f a b = .error .broadcastMismatch := by
  simp [npBroadcastBin, h, ha, hb]

end Helpers

/-- C1: for every single-argument catalog function `F` with scalar primitive
`f` and every Uncertain Quantity `u`, `F(u)` is an Uncertain Quantity whose
sample array has the same length as `u`'s and whose `i`-th sample is `f`
applied to `u`'s `i`-th sample — elementwise, no cross-sample mixing, no
reordering. -/
theorem unary_elementwise (P : NumpyPrims) (F : UnaryFn) (u : UncertainFunction) :
    ∃ r : UncertainFunction, applyUnary P F (.uf u) = .ok (.uf r) ∧
      r.mcpts.length = u.mcpts.length ∧
      ∀ i : ℕ, r.mcpts[i]? = (u.mcpts[i]?).map (primOf P F) := by
  refine ⟨⟨npMean (u.mcpts.map (primOf P F)), u.mcpts.map (primOf P F)⟩, ?_, ?_, ?_⟩
  · rw [applyUnary_eq_lift1]; rfl
  · simp
  · intro i; simp

/-- C2: every Uncertain Quantity produced by a catalog call (single-argument
or hypot) has its nominal value equal to the arithmetic mean of its own
sample array: the nominal is recomputed from the propagated samples. -/
theorem nominal_is_mean (P : NumpyPrims) (c : CatalogCall) (r : UncertainFunction)
    (h : applyCall P c = .ok (.uf r)) : r.nominal = npMean r.mcpts := by
  cases c with
  | unary F x =>
      rw [show applyCall P (.unary F x) = applyUnary P F x from rfl,
        applyUnary_eq_lift1] at h
      cases x with
      | uf u =>
          simp only [lift1, Except.ok.injEq, Value.uf.injEq] at h
          rw [← h]
      | plainScalar s => simp [lift1, npUnary] at h
      | plainArray a => simp [lift1, npUnary] at h
      | duck u => simp [lift1, npUnary] at h
  | hyp x y =>
      cases x with
      | uf u =>
          rw [show applyCall P (.hyp (.uf u) y) = hypot P (.uf u) y from rfl,
            hypot_uf_left_eq] at h
          cases hy : to_uncertain_func u.mcpts.length y with
          | error e => rw [hy] at h; simp [Except.bind] at h
          | ok ufy =>
              rw [hy] at h
              simp only [Except.bind] at h
              cases hb : npBroadcastBin P.nphypot u.mcpts ufy.mcpts with
              | error e => rw [hb] at h; simp [Except.map] at h
              | ok m =>
                  rw [hb] at h
                  simp only [Except.map, Except.ok.injEq, Value.uf.injEq] at h
                  rw [← h]
      | plainScalar s =>
          rw [show applyCall P (.hyp (.plainScalar s) y) =
            npBinary P.nphypot (.plainScalar s) y from rfl] at h
          exact absurd h (npBinary_ne_ok_uf _ _ _ _)
      | plainArray a =>
          rw [show applyCall P (.hyp (.plainArray a) y) =
            npBinary P.nphypot (.plainArray a) y from rfl] at h
          exact absurd h (npBinary_ne_ok_uf _ _ _ _)
      | duck u =>
          rw [show applyCall P (.hyp (.duck u) y) =
            npBinary P.nphypot (.duck u) y from rfl] at h
          exact absurd h (npBinary_ne_ok_uf _ _ _ _)

/-- Witness for C2 at a concrete call: `abs` over samples `[5]` with the
concrete primitive record. -/
theorem nominal_is_mean_witness :
    (⟨npMean [(5 : ℚ) + 1], [(5 : ℚ) + 1]⟩ : UncertainFunction).nominal =
      npMean (⟨npMean [(5 : ℚ) + 1], [(5 : ℚ) + 1]⟩ : UncertainFunction).mcpts :=
  nominal_is_mean P0 (.unary .abs (.uf ⟨0, [5]⟩)) ⟨npMean [(5 : ℚ) + 1], [(5 : ℚ) + 1]⟩ rfl

/-- C3: evaluation at the failing input.  Because the guard on umath.py line
182 tests `isinstance(x, UncertainFunction)` twice and never tests `y`,
`hypot(plain_scalar, U)` takes the plain branch and hands the raw
`UncertainFunction` object to the numpy primitive (a TypeError), instead of
coercing the scalar and returning an Uncertain Quantity — while the
symmetric call `hypot(U, plain_scalar)` does coerce and propagate, exposing
the asymmetry of the typo. -/
theorem hypot_guard_ignores_second_arg :
    hypot P0 (.plainScalar 2) (.uf ⟨3 / 2, [1, 2]⟩) = .error .typeError ∧
    hypot P0 (.uf ⟨3 / 2, [1, 2]⟩) (.plainScalar 2) =
      .ok (.uf ⟨npMean [(1 : ℚ) * 1 + 2 * 2, (2 : ℚ) * 2 + 2 * 2],
                [(1 : ℚ) * 1 + 2 * 2, (2 : ℚ) * 2 + 2 * 2]⟩) :=
  ⟨rfl, rfl⟩

/-- C4: on Plain Numeric Values (scalar or array; in the two-argument case,
neither argument an `UncertainFunction`), every catalog function is exactly
the underlying vectorized primitive applied directly, with its native
domain/error behavior. -/
theorem plain_passthrough :
    (∀ (P : NumpyPrims) (F : UnaryFn) (x : Value), isPlain x = true →
      applyUnary P F x = npUnary (primOf P F) x) ∧
    (∀ (P : NumpyPrims) (x y : Value), isPlain x = true → isPlain y = true →
      hypot P x y = npBinary P.nphypot x y) := by
  constructor
  · intro P F x hx
    rw [applyUnary_eq_lift1]
    cases x <;> simp_all [isPlain, lift1]
  · intro P x y hx hy
    cases x <;> simp_all [isPlain, hypot, isinstanceUF]

/-- Witness for C4: a plain scalar through `sin` and a plain scalar/array
pair through `hypot`. -/
theorem plain_passthrough_witness :
    applyUnary P0 .sin (.plainScalar 2) = npUnary (primOf P0 .sin) (.plainScalar 2) ∧
    hypot P0 (.plainScalar 2) (.plainArray [1, 2]) =
      npBinary P0.nphypot (.plainScalar 2) (.plainArray [1, 2]) :=
  ⟨plain_passthrough.1 P0 .sin (.plainScalar 2) rfl,
   plain_passthrough.2 P0 (.plainScalar 2) (.plainArray [1, 2]) rfl rfl⟩

/-- C5: `hypot` on two `UncertainFunction` instances whose sample arrays
have different lengths, neither being a degenerate length-one constant,
fails with the distinct length-mismatch (broadcast) error — it never
silently truncates or broadcasts to a wrong-length result. -/
theorem hypot_length_mismatch (P : NumpyPrims) (u v : UncertainFunction)
    (h : u.mcpts.length ≠ v.mcpts.length)
    (hu : u.mcpts.length ≠ 1) (hv : v.mcpts.length ≠ 1) :
    hypot P (.uf u) (.uf v) = .error .broadcastMismatch := by
  rw [hypot_uf_left_eq]
  simp [to_uncertain_func, Except.bind, npBroadcastBin_mismatch P.nphypot _ _ h hu hv,
    Except.map]

/-- Witness for C5: sample arrays of lengths 3 and 2. -/
theorem hypot_length_mismatch_witness :
    hypot P0 (.uf ⟨0, [1, 2, 3]⟩) (.uf ⟨0, [4, 5]⟩) = .error .broadcastMismatch :=
  hypot_length_mismatch P0 ⟨0, [1, 2, 3]⟩ ⟨0, [4, 5]⟩ (by decide) (by decide) (by decide)

/-- C6 counterexample: a value that exposes the uncertain-quantity
capability (sample array and nominal value) without being an instance of
the concrete `UncertainFunction` class is NOT treated as uncertain — the
`isinstance` guard sends it to the plain branch, where the numpy primitive
rejects it — refuting the claim that classification is a capability check. -/
theorem capability_value_not_treated_uncertain :
    hasUncertainCapability (.duck ⟨3 / 2, [1, 2]⟩) = true ∧
    isinstanceUF (.duck ⟨3 / 2, [1, 2]⟩) = false ∧
    applyUnary P0 .sin (.duck ⟨3 / 2, [1, 2]⟩) = .error .typeError :=
  ⟨rfl, rfl, rfl⟩

/-- C6 amended: classification of an argument as uncertain is an
`isinstance` check against the concrete `UncertainFunction` class (for
`hypot`, applied to the first argument only): every non-instance — plain or
capability-bearing alike — is routed to the plain branch. -/
theorem classification_is_isinstance :
    (∀ (P : NumpyPrims) (F : UnaryFn) (x : Value), isinstanceUF x = false →
      applyUnary P F x = npUnary (primOf P F) x) ∧
    (∀ (P : NumpyPrims) (x y : Value), isinstanceUF x = false →
      hypot P x y = npBinary P.nphypot x y) := by
  constructor
  · intro P F x hx
    rw [applyUnary_eq_lift1]
    cases x <;> simp_all [isinstanceUF, lift1]
  · intro P x y hx
    cases x <;> simp_all [isinstanceUF, hypot]

/-- Witness for the amended C6: the capability-bearing non-instance from the
counterexample is dispatched to the plain branch. -/
theorem classification_is_isinstance_witness :
    applyUnary P0 .sin (.duck ⟨3 / 2, [1, 2]⟩) =
      npUnary (primOf P0 .sin) (.duck ⟨3 / 2, [1, 2]⟩) ∧
    hypot P0 (.duck ⟨3 / 2, [1, 2]⟩) (.uf ⟨0, [1]⟩) =
      npBinary P0.nphypot (.duck ⟨3 / 2, [1, 2]⟩) (.uf ⟨0, [1]⟩) :=
  ⟨classification_is_isinstance.1 P0 .sin (.duck ⟨3 / 2, [1, 2]⟩) rfl,
   classification_is_isinstance.2 P0 (.duck ⟨3 / 2, [1, 2]⟩) (.uf ⟨0, [1]⟩) rfl⟩

/-- C7: `ln` is an alias of `log` — identical results for every value of
either kind. -/
theorem ln_is_log (P : NumpyPrims) (x : Value) : ln P x = log P x := rfl

/-- C8: a single-argument catalog function applied to an Uncertain Quantity
whose samples are all the same value `c` (at least one sample) yields a
result whose samples are all `f(c)` and whose nominal value is exactly
`f(c)`. -/
theorem degenerate_input (P : NumpyPrims) (F : UnaryFn) (nom : ℚ) (n : ℕ) (c : ℚ)
    (h : n ≠ 0) :
    applyUnary P F (.uf ⟨nom, List.replicate n c⟩) =
      .ok (.uf ⟨primOf P F c, List.replicate n (primOf P F c)⟩) := by
  rw [applyUnary_eq_lift1]
  simp [lift1, List.map_replicate, npMean_replicate n _ h]

/-- Witness for C8: `abs` over three repeated samples. -/
theorem degenerate_input_witness :
    applyUnary P0 .abs (.uf ⟨7, List.replicate 3 2⟩) =
      .ok (.uf ⟨primOf P0 .abs 2, List.replicate 3 (primOf P0 .abs 2)⟩) :=
  degenerate_input P0 .abs 7 3 2 (by decide)

/-- C10: a single-argument catalog function reads only the input's sample
array — two Uncertain Quantities with identical samples but different
stored nominal values produce identical results. -/
theorem result_ignores_input_nominal (P : NumpyPrims) (F : UnaryFn)
    (u1 u2 : UncertainFunction) (h : u1.mcpts = u2.mcpts) :
    applyUnary P F (.uf u1) = applyUnary P F (.uf u2) := by
  rw [applyUnary_eq_lift1, applyUnary_eq_lift1]
  simp [lift1, UncertainFunction.mcptsPriv, h]

/-- Witness for C10: same samples, nominal values 0 and 5. -/
theorem result_ignores_input_nominal_witness :
    applyUnary P0 .sin (.uf ⟨0, [1, 2]⟩) = applyUnary P0 .sin (.uf ⟨5, [1, 2]⟩) :=
  result_ignores_input_nominal P0 .sin ⟨0, [1, 2]⟩ ⟨5, [1, 2]⟩ rfl

end MCerp
